import Mathlib

/-!
Verification of the Extraction Form Controller in `src/src/App.tsx`
(Google-maps-Bolt.new-N8N-Scraper).

The single React component is embedded shallowly: component state becomes a
record `AppState`, the event handlers (`handleInputChange`, `validateForm`,
`handleSubmit`) become pure state-transformation functions, and the outcome of
the single `fetch` call is passed in as an explicit `FetchOutcome` value.
`JSON.parse` is a platform builtin, so its result on the response body is
supplied as an oracle `Option Json` alongside the raw body text (`none` means
the parse threw a SyntaxError); the controller's own inspection of the parsed
value (truthiness, `.length`, indexing, field access) is modelled faithfully
on that `Json` universe.
-/

namespace GmapsApp

/-- FormData (App.tsx lines 4-8): the three form fields. `numberOfPlaces` is a
JS number that, at every call site, is produced by `parseInt(v) || 0`, hence an
integer; we model it as `Int`. -/
structure FormData where
  searchTerms : String
  location : String
  numberOfPlaces : Int
deriving DecidableEq, Repr

/-- Errors (App.tsx line 17, `Partial<FormData>` used as a per-field optional
error-message map). `none` models an absent key. -/
structure Errors where
  searchTerms : Option String
  location : Option String
  numberOfPlaces : Option String
deriving DecidableEq, Repr

/-- Whole component state (App.tsx lines 11-20). -/
structure AppState where
  formData : FormData
  errors : Errors
  isSubmitting : Bool
  googleSheetUrl : String
  showSuccess : Bool
deriving DecidableEq, Repr

/-- Initial component state (App.tsx lines 11-20). -/
def initialState : AppState :=
  { formData := { searchTerms := "", location := "", numberOfPlaces := 10 }
    errors := { searchTerms := none, location := none, numberOfPlaces := none }
    isSubmitting := false
    googleSheetUrl := ""
    showSuccess := false }

/-- JS `String.prototype.trim`: strip leading and trailing whitespace
(modelled with `Char.isWhitespace`). -/
def jsTrim (s : String) : String :=
  String.mk (((s.data.dropWhile Char.isWhitespace).reverse.dropWhile
    Char.isWhitespace).reverse)

/-! URL pattern. The code searches with the regex
`/https:\/\/docs\.google\.com\/spreadsheets\/d\/[a-zA-Z0-9-_]+/` (lines 95 and
108): leftmost occurrence of the literal prefix followed by a maximal nonempty
run of id characters. -/

/-- Characters matched by the class `[a-zA-Z0-9-_]`. -/
def isIdChar (c : Char) : Bool :=
  (decide ('a' ≤ c) && decide (c ≤ 'z')) ||
  (decide ('A' ≤ c) && decide (c ≤ 'Z')) ||
  (decide ('0' ≤ c) && decide (c ≤ '9')) ||
  decide (c = '-') || decide (c = '_')

/-- The literal part of the spreadsheet-URL regex. -/
def urlPat : List Char := "https://docs.google.com/spreadsheets/d/".data

/-- Maximal leading run of id characters (the greedy `+`). -/
def takeIdRun : List Char → List Char
  | [] => []
  | c :: cs => if isIdChar c then c :: takeIdRun cs else []

/-- Does the pattern `pat` occur literally at the head of `cs`? -/
def litHere : List Char → List Char → Bool
  | [], _ => true
  | _ :: _, [] => false
  | p :: ps, c :: cs => decide (p = c) && litHere ps cs

/-- Try to match the regex anchored at the head of `cs`: the literal prefix
followed by at least one id character, taken greedily. -/
def matchHere (cs : List Char) : Option (List Char) :=
  if litHere urlPat cs then
    if takeIdRun (cs.drop urlPat.length) = [] then none
    else some (urlPat ++ takeIdRun (cs.drop urlPat.length))
  else none

/-- Leftmost match of the regex in `cs` (JS `String.prototype.match` without
the `g` flag, taking the whole-match component `[0]`). -/
def firstUrlMatch : List Char → Option (List Char)
  | [] => none
  | c :: cs =>
    match matchHere (c :: cs) with
    | some m => some m
    | none => firstUrlMatch cs

/-- Model of `s.match(/https:\/\/docs\.google\.com\/spreadsheets\/d\/[a-zA-Z0-9-_]+/)`,
returning the matched substring when a match exists. -/
def strMatch (s : String) : Option String :=
  (firstUrlMatch s.data).map String.mk

/-! JSON values, as returned by `JSON.parse` on the response body. Numbers are
modelled as integers (no claim depends on fractional JSON numbers). -/

/-- Universe of values `JSON.parse` can produce. -/
inductive Json where
  | null : Json
  | bool (b : Bool) : Json
  | num (n : Int) : Json
  | str (s : String) : Json
  | arr (elems : List Json) : Json
  | obj (fields : List (String × Json)) : Json

/-- JS truthiness of a parsed JSON value. -/
def Json.truthy : Json → Bool
  | .null => false
  | .bool b => b
  | .num n => decide (n ≠ 0)
  | .str s => decide (s ≠ "")
  | .arr _ => true
  | .obj _ => true

/-- JS evaluation of `d.length > 0` for a truthy parsed value `d`: arrays and
strings report their length; a plain object reports its `"length"` field when
that field is a number (other value types under a `"length"` key would go
through JS numeric coercion, which no JSON produced by this webhook exercises;
they are treated as a failed comparison); numbers and booleans have no `length`
property, and `undefined > 0` is `false`. -/
def lengthGtZero : Json → Bool
  | .arr xs => decide (0 < xs.length)
  | .str s => decide (0 < s.length)
  | .obj fs =>
    match fs.lookup "length" with
    | some (.num n) => decide (0 < n)
    | _ => false
  | _ => false

/-- JS evaluation of `d[0]`: `some` is a defined value, `none` is `undefined`.
Array indexing takes the head; string indexing yields a one-character string;
object indexing looks up the key `"0"`. -/
def elemZero : Json → Option Json
  | .arr xs => xs.head?
  | .str s => (s.data.head?).map (fun c => Json.str (String.mk [c]))
  | .obj fs => fs.lookup "0"
  | _ => none

/-- JS evaluation of `e['Set Webhook Information']` on a defined, non-null
value: only objects can carry the field; every other value yields `undefined`. -/
def webhookField : Json → Option Json
  | .obj fs => fs.lookup "Set Webhook Information"
  | _ => none

/-- Outcome of evaluating the guard
`responseData && responseData.length > 0 && responseData[0]['Set Webhook Information']`
(App.tsx line 93): it can throw a TypeError (property access on `undefined` or
`null`), pass with the (truthy) field value, or be falsy. -/
inductive ShapeCheck where
  | threw : ShapeCheck
  | denied : ShapeCheck
  | passed (info : Json) : ShapeCheck

/-- Evaluate the line-93 guard on the parsed value. -/
def shapeCheck (d : Json) : ShapeCheck :=
  if d.truthy = false then .denied
  else if lengthGtZero d = false then .denied
  else
    match elemZero d with
    | none => .threw
    | some .null => .threw
    | some e =>
      match webhookField e with
      | none => .denied
      | some v => if v.truthy then .passed v else .denied

/-- Errors that can be thrown or surfaced during a submission attempt; each
constructor records one throw site of `handleSubmit`. -/
inductive Err where
  | urlNotFound : Err
  | invalidFormat : Err
  | noJsonNoUrl : Err
  | httpStatus (status : Nat) : Err
  | typeError : Err
  | jsonParse : Err
  | networkError : Err
deriving DecidableEq, Repr

/-- Model of `response.ok`: HTTP status in the success range 200-299. -/
def respOk (status : Nat) : Bool :=
  decide (200 ≤ status) && decide (status ≤ 299)

/-- Body of the inner `try` (App.tsx lines 89-105): parse the text as JSON
(the oracle result), evaluate the shape guard, and on the expected shape match
the field's string value against the URL pattern. Every non-Success outcome is
a thrown error: the JSON SyntaxError, the two explicit `throw new Error`
statements, or a TypeError (from the guard, or from calling `.match` on a
truthy non-string field value). -/
def tryParseShape (parsed : Option Json) : Except Err String :=
  match parsed with
  | none => .error .jsonParse
  | some d =>
    match shapeCheck d with
    | .threw => .error .typeError
    | .denied => .error .invalidFormat
    | .passed v =>
      match v with
      | .str s =>
        match strMatch s with
        | some url => .ok url
        | none => .error .urlNotFound
      | _ => .error .typeError

/-- The `catch (jsonError)` fallback wrapped around `tryParseShape`
(App.tsx lines 106-116): any error thrown in the inner `try` leads to a search
of the raw text. -/
def interpretOkBody (parsed : Option Json) (body : String) : Except Err String :=
  match tryParseShape parsed with
  | .ok url => .ok url
  | .error _ =>
    match strMatch body with
    | some url => .ok url
    | none => .error .noJsonNoUrl

/-- Outcome of the `fetch` call, supplied by the environment: either a response
(status, raw body text, and the oracle result of `JSON.parse` on that text) or
a rejected promise (network failure). -/
inductive FetchOutcome where
  | response (status : Nat) (body : String) (parsed : Option Json) : FetchOutcome
  | networkError : FetchOutcome

/-- Result of the whole `try`/`catch`/`finally` around the request (App.tsx
lines 71-125). -/
def fetchResult (env : FetchOutcome) : Except Err String :=
  match env with
  | .networkError => .error .networkError
  | .response status body parsed =>
    if respOk status then interpretOkBody parsed body
    else .error (.httpStatus status)

/-- Model of `Object.keys(newErrors).length === 0` (App.tsx line 59). -/
def Errors.isEmpty (e : Errors) : Bool :=
  e.searchTerms.isNone && e.location.isNone && e.numberOfPlaces.isNone

/-- The fresh error map computed by `validateForm` (App.tsx lines 43-57). -/
def computeErrors (f : FormData) : Errors :=
  { searchTerms :=
      if jsTrim f.searchTerms = "" then some "Search terms are required" else none
    location :=
      if jsTrim f.location = "" then some "Location is required" else none
    numberOfPlaces :=
      if f.numberOfPlaces < 1 ∨ f.numberOfPlaces > 100 then
        some "Number must be between 1 and 100"
      else none }

/-- Model of `validateForm` (App.tsx lines 43-60): stores the recomputed error map and
reports whether it is empty. -/
def validateForm (s : AppState) : AppState × Bool :=
  let newErrors := computeErrors s.formData
  ({ s with errors := newErrors }, newErrors.isEmpty)

/-- Result of one `handleSubmit` run: the final component state, whether the
HTTP request was issued, and the alert shown on failure. -/
structure SubmitResult where
  finalState : AppState
  requestSent : Bool
  alerted : Option Err
deriving Repr

/-- Model of `handleSubmit` (App.tsx lines 62-126): validate (early-return when
invalid), enter Submitting and clear the previous result, send, interpret, and
always leave Submitting in the `finally`. -/
def handleSubmit (s : AppState) (env : FetchOutcome) : SubmitResult :=
  let v := validateForm s
  if v.2 = false then { finalState := v.1, requestSent := false, alerted := none }
  else
    let s2 := { v.1 with isSubmitting := true, showSuccess := false, googleSheetUrl := "" }
    match fetchResult env with
    | .ok url =>
      { finalState :=
          { s2 with googleSheetUrl := url, showSuccess := true, isSubmitting := false }
        requestSent := true
        alerted := none }
    | .error e =>
      { finalState := { s2 with isSubmitting := false }
        requestSent := true
        alerted := some e }

/-- The three form fields, as keys of `FormData`. -/
inductive Field where
  | searchTerms : Field
  | location : Field
  | numberOfPlaces : Field
deriving DecidableEq, Repr

/-- Read one field of the error map. -/
def errValue (e : Errors) : Field → Option String
  | .searchTerms => e.searchTerms
  | .location => e.location
  | .numberOfPlaces => e.numberOfPlaces

/-- Set one field of the error map to `undefined` (App.tsx lines 30-33). -/
def clearError (e : Errors) : Field → Errors
  | .searchTerms => { e with searchTerms := none }
  | .location => { e with location := none }
  | .numberOfPlaces => { e with numberOfPlaces := none }

/-- One call to `handleInputChange`, as issued by the three `onChange`
handlers: the text fields pass the raw input string, the number field passes
`parseInt(e.target.value) || 0`. -/
inductive FieldEdit where
  | searchTerms (v : String) : FieldEdit
  | location (v : String) : FieldEdit
  | numberOfPlaces (v : Int) : FieldEdit

/-- The field an edit targets. -/
def FieldEdit.field : FieldEdit → Field
  | .searchTerms _ => .searchTerms
  | .location _ => .location
  | .numberOfPlaces _ => .numberOfPlaces

/-- Model of `setFormData(prev => ({...prev, [field]: value}))` (App.tsx lines 23-26). -/
def applyEdit (f : FormData) : FieldEdit → FormData
  | .searchTerms v => { f with searchTerms := v }
  | .location v => { f with location := v }
  | .numberOfPlaces v => { f with numberOfPlaces := v }

/-- JS truthiness of `errors[field]`: present and a nonempty string. -/
def optTruthy : Option String → Bool
  | none => false
  | some m => decide (m ≠ "")

/-- Model of `handleInputChange` (App.tsx lines 22-41): store the new field value,
clear the edited field's error when one is shown, and drop the Success
state (flag and captured URL) when it is set. -/
def handleInputChange (s : AppState) (ed : FieldEdit) : AppState :=
  let fd := applyEdit s.formData ed
  let errs :=
    if optTruthy (errValue s.errors ed.field) then clearError s.errors ed.field
    else s.errors
  if s.showSuccess then
    { s with formData := fd, errors := errs, showSuccess := false, googleSheetUrl := "" }
  else
    { s with formData := fd, errors := errs }

/-! JS `parseInt` with no radix argument (ECMAScript: skip whitespace, optional
sign, then hex after a `0x`/`0X` prefix or else decimal; greedy digit run,
trailing junk ignored; `none` models `NaN`). Used at App.tsx line 252. -/

/-- Decimal digit value. -/
def decDigit (c : Char) : Option Nat :=
  if decide ('0' ≤ c) && decide (c ≤ '9') then some (c.toNat - 48) else none

/-- Hexadecimal digit value. -/
def hexDigit (c : Char) : Option Nat :=
  if decide ('0' ≤ c) && decide (c ≤ '9') then some (c.toNat - 48)
  else if decide ('a' ≤ c) && decide (c ≤ 'f') then some (c.toNat - 87)
  else if decide ('A' ≤ c) && decide (c ≤ 'F') then some (c.toNat - 55)
  else none

/-- Maximal leading run of digits, as digit values. -/
def digitRun (digit : Char → Option Nat) : List Char → List Nat
  | [] => []
  | c :: cs =>
    match digit c with
    | some v => v :: digitRun digit cs
    | none => []

/-- Value of a digit-value list in the given base. -/
def digitsToNat (base : Nat) (ds : List Nat) : Nat :=
  ds.foldl (fun acc d => acc * base + d) 0

/-- Model of `parseInt(s)`: `none` is `NaN`. -/
def jsParseInt (s : String) : Option Int :=
  let cs := s.data.dropWhile Char.isWhitespace
  let sign : Int := match cs with | '-' :: _ => -1 | _ => 1
  let cs2 := match cs with | '-' :: rest => rest | '+' :: rest => rest | _ => cs
  let hex : Bool := match cs2 with
    | '0' :: 'x' :: _ => true
    | '0' :: 'X' :: _ => true
    | _ => false
  let cs3 := if hex then cs2.drop 2 else cs2
  let ds := digitRun (if hex then hexDigit else decDigit) cs3
  if ds = [] then none
  else some (sign * (digitsToNat (if hex then 16 else 10) ds : Int))

/-- The number-input `onChange` handler (App.tsx line 252):
`handleInputChange('numberOfPlaces', parseInt(e.target.value) || 0)`.
`NaN || 0` is `0` and `0 || 0` (also `-0`) is `0`, so the stored value is the
parse result with `NaN` replaced by `0`. -/
def numberOfPlacesChange (s : AppState) (raw : String) : AppState :=
  handleInputChange s (.numberOfPlaces ((jsParseInt raw).getD 0))

/-- Events that drive the controller: a field edit (the number field going
through its `onChange` pipeline) or a form submit with a given fetch outcome. -/
inductive Event where
  | edit (ed : FieldEdit) : Event
  | editNumberRaw (raw : String) : Event
  | submit (env : FetchOutcome) : Event

/-- One controller step. -/
def step (s : AppState) : Event → AppState
  | .edit ed => handleInputChange s ed
  | .editNumberRaw raw => numberOfPlacesChange s raw
  | .submit env => (handleSubmit s env).finalState

/-- States reachable from the initial render by any event sequence. -/
inductive Reachable : AppState → Prop where
  | init : Reachable initialState
  | next (s : AppState) (ev : Event) : Reachable s → Reachable (step s ev)

/-- The success panel is rendered exactly when
`showSuccess && googleSheetUrl` is truthy (App.tsx line 145). -/
def successDisplayed (s : AppState) : Bool :=
  s.showSuccess && decide (s.googleSheetUrl ≠ "")

/-- A well-formed captured spreadsheet URL: the literal prefix
`https://docs.google.com/spreadsheets/d/` followed by at least one character
of the class `[a-zA-Z0-9-_]`. -/
def isSheetUrl (u : String) : Prop :=
  ∃ c rest, u.data = urlPat ++ c :: rest ∧ isIdChar c = true

/-- A concrete valid form state (all three fields pass validation). -/
def sampleValidState : AppState :=
  { formData := { searchTerms := "cafes", location := "Paris", numberOfPlaces := 10 }
    errors := { searchTerms := none, location := none, numberOfPlaces := none }
    isSubmitting := false
    googleSheetUrl := ""
    showSuccess := false }

/-- Parse result of `cxBody`: valid JSON, but an object — not the expected
non-empty array whose first element carries `"Set Webhook Information"`. -/
def cxParsed : Json :=
  Json.obj [("a", Json.str "https://docs.google.com/spreadsheets/d/ABC")]

/-- A response body that is valid JSON of the wrong shape while its raw text
contains a spreadsheet URL:
`{"a":"https://docs.google.com/spreadsheets/d/ABC"}`. -/
def cxBody : String :=
  "\x7b\"a\":\"https://docs.google.com/spreadsheets/d/ABC\"\x7d"

/-! Helper lemmas shared by the claim theorems. -/

/-- Field-by-field characterization of the recomputed error map. -/
theorem computeErrors_char (f : FormData) :
    ((computeErrors f).searchTerms.isSome ↔ jsTrim f.searchTerms = "") ∧
    ((computeErrors f).location.isSome ↔ jsTrim f.location = "") ∧
    ((computeErrors f).numberOfPlaces.isSome ↔
      (f.numberOfPlaces < 1 ∨ 100 < f.numberOfPlaces)) := by
  unfold computeErrors
  refine ⟨?_, ?_, ?_⟩ <;> dsimp only <;> split <;> simp_all

/-- The validation error map is empty exactly when all three fields satisfy
their constraints. -/
theorem computeErrors_isEmpty_iff (f : FormData) :
    (computeErrors f).isEmpty = true ↔
      (jsTrim f.searchTerms ≠ "" ∧ jsTrim f.location ≠ "" ∧
       1 ≤ f.numberOfPlaces ∧ f.numberOfPlaces ≤ 100) := by
  unfold computeErrors Errors.isEmpty
  by_cases h1 : jsTrim f.searchTerms = "" <;> by_cases h2 : jsTrim f.location = "" <;>
    by_cases h3 : f.numberOfPlaces < 1 ∨ 100 < f.numberOfPlaces <;>
      simp [h1, h2, h3] <;> omega

/-- On a failed validation, `handleSubmit` only stores the fresh error map. -/
theorem handleSubmit_of_isEmpty_false (s : AppState) (env : FetchOutcome)
    (h : (computeErrors s.formData).isEmpty = false) :
    handleSubmit s env =
      { finalState := { s with errors := computeErrors s.formData }
        requestSent := false
        alerted := none } := by
  unfold handleSubmit validateForm
  simp [h]

/-- On a validated submit whose interpretation succeeds, `handleSubmit` ends
in the Success state carrying the extracted URL. -/
theorem handleSubmit_of_ok (s : AppState) (env : FetchOutcome) (url : String)
    (h : (computeErrors s.formData).isEmpty = true)
    (hr : fetchResult env = .ok url) :
    handleSubmit s env =
      { finalState :=
          { formData := s.formData, errors := computeErrors s.formData
            isSubmitting := false, googleSheetUrl := url, showSuccess := true }
        requestSent := true
        alerted := none } := by
  unfold handleSubmit validateForm
  simp [h, hr]

/-- On a validated submit whose interpretation fails, `handleSubmit` ends in
the Failed state: no Success flag, no URL, and an alert. -/
theorem handleSubmit_of_error (s : AppState) (env : FetchOutcome) (e : Err)
    (h : (computeErrors s.formData).isEmpty = true)
    (hr : fetchResult env = .error e) :
    handleSubmit s env =
      { finalState :=
          { formData := s.formData, errors := computeErrors s.formData
            isSubmitting := false, googleSheetUrl := "", showSuccess := false }
        requestSent := true
        alerted := some e } := by
  unfold handleSubmit validateForm
  simp [h, hr]

/-! Claim theorems. -/

/-- C2: validation flags `searchTerms` exactly when its trimmed value is
empty, `location` exactly when its trimmed value is empty, and
`numberOfPlaces` exactly when it lies outside the inclusive range [1, 100];
the boundary values 1 and 100 pass while 0 and 101 fail. -/
theorem claim2_validation_contract (f : FormData) :
    ((computeErrors f).searchTerms.isSome ↔ jsTrim f.searchTerms = "") ∧
    ((computeErrors f).location.isSome ↔ jsTrim f.location = "") ∧
    ((computeErrors f).numberOfPlaces.isSome ↔
      (f.numberOfPlaces < 1 ∨ 100 < f.numberOfPlaces)) ∧
    (computeErrors { f with numberOfPlaces := 1 }).numberOfPlaces = none ∧
    (computeErrors { f with numberOfPlaces := 100 }).numberOfPlaces = none ∧
    (computeErrors { f with numberOfPlaces := 0 }).numberOfPlaces.isSome = true ∧
    (computeErrors { f with numberOfPlaces := 101 }).numberOfPlaces.isSome = true := by
  obtain ⟨h1, h2, h3⟩ := computeErrors_char f
  refine ⟨h1, h2, h3, ?_, ?_, ?_, ?_⟩ <;> unfold computeErrors <;> dsimp only <;>
    split <;> simp_all

/-- C2 witness: at a concrete form, `numberOfPlaces = 0` is flagged. -/
theorem claim2_validation_contract_witness :
    (computeErrors { searchTerms := "a", location := "b", numberOfPlaces := 0 }).numberOfPlaces.isSome = true :=
  (claim2_validation_contract
    { searchTerms := "a", location := "b", numberOfPlaces := 0 }).2.2.2.2.2.1

/-- C3: when any field is invalid, a submit attempt issues no HTTP request and
stores exactly the error map computed by validation, whose flagged fields are
exactly the failing ones. -/
theorem claim3_invalid_blocks_request (st : AppState) (env : FetchOutcome)
    (h : jsTrim st.formData.searchTerms = "" ∨ jsTrim st.formData.location = "" ∨
         st.formData.numberOfPlaces < 1 ∨ 100 < st.formData.numberOfPlaces) :
    (handleSubmit st env).requestSent = false ∧
    (handleSubmit st env).finalState = { st with errors := computeErrors st.formData } ∧
    ((handleSubmit st env).finalState.errors.searchTerms.isSome ↔
      jsTrim st.formData.searchTerms = "") ∧
    ((handleSubmit st env).finalState.errors.location.isSome ↔
      jsTrim st.formData.location = "") ∧
    ((handleSubmit st env).finalState.errors.numberOfPlaces.isSome ↔
      (st.formData.numberOfPlaces < 1 ∨ 100 < st.formData.numberOfPlaces)) := by
  have hne : (computeErrors st.formData).isEmpty = false := by
    cases hb : (computeErrors st.formData).isEmpty with
    | false => rfl
    | true =>
      obtain ⟨a, b, c, d⟩ := (computeErrors_isEmpty_iff st.formData).mp hb
      rcases h with h | h | h | h
      · exact absurd h a
      · exact absurd h b
      · omega
      · omega
  obtain ⟨h1, h2, h3⟩ := computeErrors_char st.formData
  rw [handleSubmit_of_isEmpty_false st env hne]
  exact ⟨rfl, rfl, h1, h2, h3⟩

/-- C3 witness: with empty search terms, no request is sent and exactly the
failing field is flagged. -/
theorem claim3_invalid_blocks_request_witness :
    (handleSubmit
      { formData := { searchTerms := "", location := "Paris", numberOfPlaces := 10 }
        errors := { searchTerms := none, location := none, numberOfPlaces := none }
        isSubmitting := false, googleSheetUrl := "", showSuccess := false }
      FetchOutcome.networkError).requestSent = false :=
  (claim3_invalid_blocks_request _ FetchOutcome.networkError (Or.inl (by decide))).1

/-- C7: every attempt that actually enters Submitting (issues the request)
finishes with the Submitting flag cleared, whatever the fetch outcome. -/
theorem claim7_submitting_always_ends (st : AppState) (env : FetchOutcome)
    (h : (handleSubmit st env).requestSent = true) :
    (handleSubmit st env).finalState.isSubmitting = false := by
  cases hb : (computeErrors st.formData).isEmpty with
  | false =>
    rw [handleSubmit_of_isEmpty_false st env hb] at h
    simp at h
  | true =>
    cases hr : fetchResult env with
    | ok url => rw [handleSubmit_of_ok st env url hb hr]
    | error e => rw [handleSubmit_of_error st env e hb hr]

/-- C7 witness: a valid submit hitting a network error still clears the
Submitting flag. -/
theorem claim7_submitting_always_ends_witness :
    (handleSubmit
      { formData := { searchTerms := "cafes", location := "Paris", numberOfPlaces := 10 }
        errors := { searchTerms := none, location := none, numberOfPlaces := none }
        isSubmitting := false, googleSheetUrl := "", showSuccess := false }
      FetchOutcome.networkError).finalState.isSubmitting = false :=
  claim7_submitting_always_ends _ FetchOutcome.networkError (by decide)

/-- Clearing one field's error leaves every other field's error unchanged. -/
theorem clearError_other (e : Errors) (fld f : Field) (h : f ≠ fld) :
    errValue (clearError e fld) f = errValue e f := by
  cases fld <;> cases f <;> simp_all [clearError, errValue]

/-- Clearing one field's error sets that field's error to `none`. -/
theorem clearError_self (e : Errors) (fld : Field) :
    errValue (clearError e fld) fld = none := by
  cases fld <;> simp [clearError, errValue]

/-- C8: a field edit stores the new value, clears only the edited field's
shown error (leaving the other fields' errors untouched, and the whole error
map untouched when no error is shown for the edited field), never touches the
Submitting flag, and drops the Success flag and captured URL exactly when the
Success flag was set. -/
theorem claim8_edit_frame (st : AppState) (ed : FieldEdit) :
    (handleInputChange st ed).formData = applyEdit st.formData ed ∧
    (handleInputChange st ed).isSubmitting = st.isSubmitting ∧
    (∀ f : Field, f ≠ ed.field →
      errValue (handleInputChange st ed).errors f = errValue st.errors f) ∧
    (optTruthy (errValue st.errors ed.field) = true →
      errValue (handleInputChange st ed).errors ed.field = none) ∧
    (optTruthy (errValue st.errors ed.field) = false →
      (handleInputChange st ed).errors = st.errors) ∧
    (st.showSuccess = true →
      (handleInputChange st ed).showSuccess = false ∧
      (handleInputChange st ed).googleSheetUrl = "") ∧
    (st.showSuccess = false →
      (handleInputChange st ed).showSuccess = false ∧
      (handleInputChange st ed).googleSheetUrl = st.googleSheetUrl) := by
  unfold handleInputChange
  cases hs : st.showSuccess <;>
    cases he : optTruthy (errValue st.errors ed.field) <;>
      simp [hs, he, clearError_self] <;>
        exact fun f hf => clearError_other _ _ _ hf

/-- C8 witness: with errors shown on both text fields and a Success result
displayed, editing `searchTerms` clears only that error and drops the Success
state. -/
theorem claim8_edit_frame_witness :
    errValue (handleInputChange
      { formData := { searchTerms := "", location := "", numberOfPlaces := 10 }
        errors := { searchTerms := some "Search terms are required"
                    location := some "Location is required", numberOfPlaces := none }
        isSubmitting := false
        googleSheetUrl := "https://docs.google.com/spreadsheets/d/Q"
        showSuccess := true }
      (FieldEdit.searchTerms "cafes")).errors Field.location =
        some "Location is required" ∧
    errValue (handleInputChange
      { formData := { searchTerms := "", location := "", numberOfPlaces := 10 }
        errors := { searchTerms := some "Search terms are required"
                    location := some "Location is required", numberOfPlaces := none }
        isSubmitting := false
        googleSheetUrl := "https://docs.google.com/spreadsheets/d/Q"
        showSuccess := true }
      (FieldEdit.searchTerms "cafes")).errors Field.searchTerms = none ∧
    (handleInputChange
      { formData := { searchTerms := "", location := "", numberOfPlaces := 10 }
        errors := { searchTerms := some "Search terms are required"
                    location := some "Location is required", numberOfPlaces := none }
        isSubmitting := false
        googleSheetUrl := "https://docs.google.com/spreadsheets/d/Q"
        showSuccess := true }
      (FieldEdit.searchTerms "cafes")).showSuccess = false := by
  refine ⟨?_, ?_, ?_⟩
  · exact (claim8_edit_frame _ (FieldEdit.searchTerms "cafes")).2.2.1
      Field.location (by decide)
  · exact (claim8_edit_frame _ (FieldEdit.searchTerms "cafes")).2.2.2.1 (by decide)
  · exact ((claim8_edit_frame _ (FieldEdit.searchTerms "cafes")).2.2.2.2.2.1 rfl).1

/-- C9: the number-field change handler always stores the `parseInt` result
with `NaN` coerced to `0`; in particular a non-numeric input string stores `0`,
which then fails validation. -/
theorem claim9_number_input_integer (st : AppState) (raw : String) :
    (numberOfPlacesChange st raw).formData.numberOfPlaces = (jsParseInt raw).getD 0 ∧
    (jsParseInt raw = none →
      (numberOfPlacesChange st raw).formData.numberOfPlaces = 0 ∧
      (computeErrors (numberOfPlacesChange st raw).formData).numberOfPlaces.isSome
        = true) := by
  have hstore : (numberOfPlacesChange st raw).formData.numberOfPlaces
      = (jsParseInt raw).getD 0 := by
    unfold numberOfPlacesChange handleInputChange
    cases hs : st.showSuccess <;>
      cases he : optTruthy (errValue st.errors
        (FieldEdit.numberOfPlaces ((jsParseInt raw).getD 0)).field) <;>
        simp [hs, he, applyEdit]
  refine ⟨hstore, fun hn => ?_⟩
  have h0 : (numberOfPlacesChange st raw).formData.numberOfPlaces = 0 := by
    rw [hstore, hn]
    rfl
  refine ⟨h0, ?_⟩
  have := (computeErrors_char (numberOfPlacesChange st raw).formData).2.2
  rw [h0] at this
  simp at this
  exact this

/-- C9 witness: emptying the number field stores `0`, which fails validation. -/
theorem claim9_number_input_integer_witness :
    (numberOfPlacesChange initialState "").formData.numberOfPlaces = 0 ∧
    (computeErrors (numberOfPlacesChange initialState "").formData).numberOfPlaces.isSome
      = true :=
  (claim9_number_input_integer initialState "").2 (by decide)

/-- A string with a URL match is nonempty. -/
theorem strMatch_ne_empty (s url : String) (h : strMatch s = some url) : s ≠ "" := by
  intro hs
  rw [hs] at h
  simp [strMatch, firstUrlMatch] at h

/-- C4: a success-status response parsing to a non-empty array whose first
element carries a string field `"Set Webhook Information"` in which the URL
pattern matches ends the attempt in Success, capturing the first match. -/
theorem claim4_json_url_success (st : AppState) (status : Nat) (body : String)
    (fs : List (String × Json)) (rest : List Json) (s url : String)
    (hv : (computeErrors st.formData).isEmpty = true)
    (hs : respOk status = true)
    (hf : fs.lookup "Set Webhook Information" = some (Json.str s))
    (hm : strMatch s = some url) :
    (handleSubmit st
      (.response status body (some (.arr (.obj fs :: rest))))).finalState.showSuccess
        = true ∧
    (handleSubmit st
      (.response status body (some (.arr (.obj fs :: rest))))).finalState.googleSheetUrl
        = url ∧
    (handleSubmit st
      (.response status body (some (.arr (.obj fs :: rest))))).alerted = none := by
  have hne : s ≠ "" := strMatch_ne_empty s url hm
  have hsc : shapeCheck (Json.arr (Json.obj fs :: rest))
      = ShapeCheck.passed (Json.str s) := by
    unfold shapeCheck
    simp [Json.truthy, lengthGtZero, elemZero, webhookField, hf, hne]
  have hr : fetchResult
      (FetchOutcome.response status body (some (Json.arr (Json.obj fs :: rest))))
        = Except.ok url := by
    unfold fetchResult interpretOkBody tryParseShape
    simp [hs, hsc, hm]
  rw [handleSubmit_of_ok st _ url hv hr]
  exact ⟨rfl, rfl, rfl⟩

/-- C4 witness: the spec's example body
`[{"Set Webhook Information": "link: https://docs.google.com/spreadsheets/d/ABC123"}]`
yields Success with URL `https://docs.google.com/spreadsheets/d/ABC123`. -/
theorem claim4_json_url_success_witness :
    (handleSubmit
      { formData := { searchTerms := "cafes", location := "Paris", numberOfPlaces := 10 }
        errors := { searchTerms := none, location := none, numberOfPlaces := none }
        isSubmitting := false, googleSheetUrl := "", showSuccess := false }
      (FetchOutcome.response 200
        "[\x7b\"Set Webhook Information\": \"link: https://docs.google.com/spreadsheets/d/ABC123\"\x7d]"
        (some (Json.arr [Json.obj [("Set Webhook Information",
          Json.str "link: https://docs.google.com/spreadsheets/d/ABC123")]])))).finalState.showSuccess
        = true ∧
    (handleSubmit
      { formData := { searchTerms := "cafes", location := "Paris", numberOfPlaces := 10 }
        errors := { searchTerms := none, location := none, numberOfPlaces := none }
        isSubmitting := false, googleSheetUrl := "", showSuccess := false }
      (FetchOutcome.response 200
        "[\x7b\"Set Webhook Information\": \"link: https://docs.google.com/spreadsheets/d/ABC123\"\x7d]"
        (some (Json.arr [Json.obj [("Set Webhook Information",
          Json.str "link: https://docs.google.com/spreadsheets/d/ABC123")]])))).finalState.googleSheetUrl
        = "https://docs.google.com/spreadsheets/d/ABC123" := by
  have h := claim4_json_url_success
    { formData := { searchTerms := "cafes", location := "Paris", numberOfPlaces := 10 }
      errors := { searchTerms := none, location := none, numberOfPlaces := none }
      isSubmitting := false, googleSheetUrl := "", showSuccess := false }
    200
    "[\x7b\"Set Webhook Information\": \"link: https://docs.google.com/spreadsheets/d/ABC123\"\x7d]"
    [("Set Webhook Information",
      Json.str "link: https://docs.google.com/spreadsheets/d/ABC123")]
    []
    "link: https://docs.google.com/spreadsheets/d/ABC123"
    "https://docs.google.com/spreadsheets/d/ABC123"
    (by decide) (by decide) rfl (by decide)
  exact ⟨h.1, h.2.1⟩

/-- C5: when the body is not valid JSON, the raw text is searched with the URL
pattern; a match ends the attempt in Success with that URL, and otherwise it
ends in Failed with the no-JSON-no-URL error. -/
theorem claim5_raw_text_fallback (st : AppState) (status : Nat) (body : String)
    (hv : (computeErrors st.formData).isEmpty = true)
    (hs : respOk status = true) :
    (∀ url, strMatch body = some url →
      (handleSubmit st (.response status body none)).finalState.showSuccess = true ∧
      (handleSubmit st (.response status body none)).finalState.googleSheetUrl = url ∧
      (handleSubmit st (.response status body none)).alerted = none) ∧
    (strMatch body = none →
      (handleSubmit st (.response status body none)).finalState.showSuccess = false ∧
      (handleSubmit st (.response status body none)).finalState.googleSheetUrl = "" ∧
      (handleSubmit st (.response status body none)).alerted = some Err.noJsonNoUrl) := by
  constructor
  · intro url hm
    have hr : fetchResult (FetchOutcome.response status body none) = Except.ok url := by
      unfold fetchResult interpretOkBody tryParseShape
      simp [hs, hm]
    rw [handleSubmit_of_ok st _ url hv hr]
    exact ⟨rfl, rfl, rfl⟩
  · intro hm
    have hr : fetchResult (FetchOutcome.response status body none)
        = Except.error Err.noJsonNoUrl := by
      unfold fetchResult interpretOkBody tryParseShape
      simp [hs, hm]
    rw [handleSubmit_of_error st _ Err.noJsonNoUrl hv hr]
    exact ⟨rfl, rfl, rfl⟩

/-- C5 witness: the spec's example body
`see https://docs.google.com/spreadsheets/d/XYZ789 for results` is not JSON
yet ends in Success with URL `https://docs.google.com/spreadsheets/d/XYZ789`. -/
theorem claim5_raw_text_fallback_witness :
    (handleSubmit
      { formData := { searchTerms := "cafes", location := "Paris", numberOfPlaces := 10 }
        errors := { searchTerms := none, location := none, numberOfPlaces := none }
        isSubmitting := false, googleSheetUrl := "", showSuccess := false }
      (FetchOutcome.response 200
        "see https://docs.google.com/spreadsheets/d/XYZ789 for results"
        none)).finalState.showSuccess = true ∧
    (handleSubmit
      { formData := { searchTerms := "cafes", location := "Paris", numberOfPlaces := 10 }
        errors := { searchTerms := none, location := none, numberOfPlaces := none }
        isSubmitting := false, googleSheetUrl := "", showSuccess := false }
      (FetchOutcome.response 200
        "see https://docs.google.com/spreadsheets/d/XYZ789 for results"
        none)).finalState.googleSheetUrl
        = "https://docs.google.com/spreadsheets/d/XYZ789" := by
  have h := (claim5_raw_text_fallback
    { formData := { searchTerms := "cafes", location := "Paris", numberOfPlaces := 10 }
      errors := { searchTerms := none, location := none, numberOfPlaces := none }
      isSubmitting := false, googleSheetUrl := "", showSuccess := false }
    200 "see https://docs.google.com/spreadsheets/d/XYZ789 for results"
    (by decide) (by decide)).1
    "https://docs.google.com/spreadsheets/d/XYZ789" (by decide)
  exact ⟨h.1, h.2.1⟩

/-- C6: a non-success HTTP status ends the attempt in Failed with the
HTTP-status error, no URL captured, and the final result is independent of the
response body and of its parse. -/
theorem claim6_http_status_error (st : AppState) (status : Nat)
    (b1 b2 : String) (p1 p2 : Option Json)
    (hv : (computeErrors st.formData).isEmpty = true)
    (hs : respOk status = false) :
    (handleSubmit st (.response status b1 p1)).alerted
      = some (Err.httpStatus status) ∧
    (handleSubmit st (.response status b1 p1)).finalState.showSuccess = false ∧
    (handleSubmit st (.response status b1 p1)).finalState.googleSheetUrl = "" ∧
    handleSubmit st (.response status b1 p1) = handleSubmit st (.response status b2 p2) := by
  have hr1 : fetchResult (FetchOutcome.response status b1 p1)
      = Except.error (Err.httpStatus status) := by
    unfold fetchResult
    simp [hs]
  have hr2 : fetchResult (FetchOutcome.response status b2 p2)
      = Except.error (Err.httpStatus status) := by
    unfold fetchResult
    simp [hs]
  rw [handleSubmit_of_error st _ _ hv hr1, handleSubmit_of_error st _ _ hv hr2]
  exact ⟨rfl, rfl, rfl, rfl⟩

/-- C6 witness: HTTP 500 fails with the status error, captures no URL, and
ignores the body (a body containing a spreadsheet URL gives the same result as
an empty body). -/
theorem claim6_http_status_error_witness :
    (handleSubmit
      { formData := { searchTerms := "cafes", location := "Paris", numberOfPlaces := 10 }
        errors := { searchTerms := none, location := none, numberOfPlaces := none }
        isSubmitting := false, googleSheetUrl := "", showSuccess := false }
      (FetchOutcome.response 500 "oops https://docs.google.com/spreadsheets/d/Q" none)).alerted
      = some (Err.httpStatus 500) ∧
    (handleSubmit
      { formData := { searchTerms := "cafes", location := "Paris", numberOfPlaces := 10 }
        errors := { searchTerms := none, location := none, numberOfPlaces := none }
        isSubmitting := false, googleSheetUrl := "", showSuccess := false }
      (FetchOutcome.response 500 "oops https://docs.google.com/spreadsheets/d/Q" none))
      = handleSubmit
      { formData := { searchTerms := "cafes", location := "Paris", numberOfPlaces := 10 }
        errors := { searchTerms := none, location := none, numberOfPlaces := none }
        isSubmitting := false, googleSheetUrl := "", showSuccess := false }
      (FetchOutcome.response 500 "" none) := by
  have h := claim6_http_status_error
    { formData := { searchTerms := "cafes", location := "Paris", numberOfPlaces := 10 }
      errors := { searchTerms := none, location := none, numberOfPlaces := none }
      isSubmitting := false, googleSheetUrl := "", showSuccess := false }
    500 "oops https://docs.google.com/spreadsheets/d/Q" "" none none
    (by decide) (by decide)
  exact ⟨h.1, h.2.2.2⟩

/-- The head of a nonempty id-run is an id character. -/
theorem takeIdRun_head (l : List Char) (c : Char) (rest : List Char)
    (h : takeIdRun l = c :: rest) : isIdChar c = true := by
  cases l with
  | nil => simp [takeIdRun] at h
  | cons a as =>
    cases ha : isIdChar a with
    | false => simp [takeIdRun, ha] at h
    | true =>
      simp [takeIdRun, ha] at h
      rw [← h.1]
      exact ha

/-- An anchored match is the literal prefix followed by a nonempty id-run. -/
theorem matchHere_shape (cs m : List Char) (h : matchHere cs = some m) :
    ∃ c rest, m = urlPat ++ c :: rest ∧ isIdChar c = true := by
  unfold matchHere at h
  by_cases hl : litHere urlPat cs = true
  · rw [if_pos hl] at h
    by_cases hr : takeIdRun (cs.drop urlPat.length) = []
    · rw [if_pos hr] at h
      simp at h
    · rw [if_neg hr] at h
      cases hrun : takeIdRun (cs.drop urlPat.length) with
      | nil => exact absurd hrun hr
      | cons c rest =>
        refine ⟨c, rest, ?_, takeIdRun_head _ _ _ hrun⟩
        rw [← Option.some.inj h, hrun]
  · rw [if_neg hl] at h
    simp at h

/-- Any leftmost match is the literal prefix followed by a nonempty id-run. -/
theorem firstUrlMatch_shape (cs : List Char) (m : List Char)
    (h : firstUrlMatch cs = some m) :
    ∃ c rest, m = urlPat ++ c :: rest ∧ isIdChar c = true := by
  induction cs with
  | nil => simp [firstUrlMatch] at h
  | cons a as ih =>
    unfold firstUrlMatch at h
    cases hm : matchHere (a :: as) with
    | some m2 =>
      rw [hm] at h
      exact Option.some.inj h ▸ matchHere_shape _ _ hm
    | none =>
      rw [hm] at h
      exact ih h

/-- Any URL the regex extracts is a well-formed spreadsheet URL. -/
theorem strMatch_isSheetUrl (s url : String) (h : strMatch s = some url) :
    isSheetUrl url := by
  unfold strMatch at h
  cases hf : firstUrlMatch s.data with
  | none => rw [hf] at h; simp at h
  | some m =>
    rw [hf] at h
    have h2 : some (String.mk m) = some url := h
    obtain ⟨c, rest, hm, hc⟩ := firstUrlMatch_shape s.data m hf
    refine ⟨c, rest, ?_, hc⟩
    rw [← Option.some.inj h2, hm]

/-- The inner `try` succeeds only with a URL the regex extracted from some
string. -/
theorem tryParseShape_ok (parsed : Option Json) (url : String)
    (h : tryParseShape parsed = Except.ok url) :
    ∃ s, strMatch s = some url := by
  cases parsed with
  | none => simp [tryParseShape] at h
  | some d =>
    simp only [tryParseShape] at h
    cases hsc : shapeCheck d with
    | threw => rw [hsc] at h; simp at h
    | denied => rw [hsc] at h; simp at h
    | passed v =>
      rw [hsc] at h
      dsimp only at h
      cases v with
      | str s =>
        dsimp only at h
        cases hm : strMatch s with
        | none => rw [hm] at h; simp at h
        | some u =>
          rw [hm] at h
          exact ⟨s, by rw [hm]; exact congrArg some (Except.ok.inj h)⟩
      | null => simp at h
      | bool b => simp at h
      | num n => simp at h
      | arr xs => simp at h
      | obj fs => simp at h

/-- Response-body interpretation succeeds only with a URL the regex extracted
from some string (the webhook field or the raw body). -/
theorem interpretOkBody_ok (parsed : Option Json) (body url : String)
    (h : interpretOkBody parsed body = Except.ok url) :
    ∃ s, strMatch s = some url := by
  unfold interpretOkBody at h
  cases ht : tryParseShape parsed with
  | ok u =>
    rw [ht] at h
    exact Except.ok.inj h ▸ tryParseShape_ok parsed u ht
  | error e =>
    rw [ht] at h
    cases hm : strMatch body with
    | none => rw [hm] at h; simp at h
    | some u =>
      rw [hm] at h
      exact ⟨body, by rw [hm]; exact congrArg some (Except.ok.inj h)⟩

/-- The whole fetch interpretation succeeds only with a regex-extracted URL. -/
theorem fetchResult_ok (env : FetchOutcome) (url : String)
    (h : fetchResult env = Except.ok url) :
    ∃ s, strMatch s = some url := by
  cases env with
  | networkError => simp [fetchResult] at h
  | response status body parsed =>
    unfold fetchResult at h
    cases hok : respOk status with
    | false => simp [hok] at h
    | true =>
      simp only [hok, if_true] at h
      exact interpretOkBody_ok parsed body url h

/-- A field edit always leaves the Success flag cleared. -/
theorem handleInputChange_showSuccess (s : AppState) (ed : FieldEdit) :
    (handleInputChange s ed).showSuccess = false := by
  unfold handleInputChange
  cases hs : s.showSuccess <;> simp [hs]

/-- If the shape guard does not pass, the inner `try` throws. -/
theorem tryParseShape_error_of_not_passed (d : Json)
    (hd : ∀ v, shapeCheck d ≠ ShapeCheck.passed v) :
    ∃ e, tryParseShape (some d) = Except.error e := by
  cases hsc : shapeCheck d with
  | threw => exact ⟨Err.typeError, by simp [tryParseShape, hsc]⟩
  | denied => exact ⟨Err.invalidFormat, by simp [tryParseShape, hsc]⟩
  | passed v => exact absurd hsc (hd v)

/-- If the shape guard does not pass, interpretation is the raw-text
fallback. -/
theorem interpretOkBody_fallback (d : Json) (body : String)
    (hd : ∀ v, shapeCheck d ≠ ShapeCheck.passed v) :
    interpretOkBody (some d) body =
      match strMatch body with
      | some url => Except.ok url
      | none => Except.error Err.noJsonNoUrl := by
  obtain ⟨e, he⟩ := tryParseShape_error_of_not_passed d hd
  unfold interpretOkBody
  rw [he]

/-- C1 counterexample: a success-status response whose body is valid JSON of
the wrong shape (an object, so the line-93 guard is falsy) ends in Success
with a captured URL — not in Failed — because the `catch (jsonError)` block
also catches the `Invalid response format` throw and finds the URL in the raw
text. -/
theorem claim1_counterexample :
    respOk 200 = true ∧
    shapeCheck cxParsed = ShapeCheck.denied ∧
    (handleSubmit sampleValidState
      (FetchOutcome.response 200 cxBody (some cxParsed))).finalState.showSuccess
      = true ∧
    (handleSubmit sampleValidState
      (FetchOutcome.response 200 cxBody (some cxParsed))).finalState.googleSheetUrl
      = "https://docs.google.com/spreadsheets/d/ABC" ∧
    (handleSubmit sampleValidState
      (FetchOutcome.response 200 cxBody (some cxParsed))).alerted = none :=
  ⟨by decide, rfl, by decide, by decide, by decide⟩

/-- C1 amended: on a success-status response whose body parses as JSON but
whose parsed value does not pass the shape guard, the raw body text is
searched with the URL pattern; a match ends the attempt in Success with that
URL, and only when there is no match does it end in Failed — with the
`Response is not valid JSON and no Google Sheet URL found` error, not the
`URL not found` / `invalid format` ones. -/
theorem claim1_amended_wrong_shape_falls_back (st : AppState) (status : Nat)
    (body : String) (d : Json)
    (hv : (computeErrors st.formData).isEmpty = true)
    (hs : respOk status = true)
    (hd : ∀ v, shapeCheck d ≠ ShapeCheck.passed v) :
    (∀ url, strMatch body = some url →
      (handleSubmit st (.response status body (some d))).finalState.showSuccess
        = true ∧
      (handleSubmit st (.response status body (some d))).finalState.googleSheetUrl
        = url ∧
      (handleSubmit st (.response status body (some d))).alerted = none) ∧
    (strMatch body = none →
      (handleSubmit st (.response status body (some d))).finalState.showSuccess
        = false ∧
      (handleSubmit st (.response status body (some d))).finalState.googleSheetUrl
        = "" ∧
      (handleSubmit st (.response status body (some d))).alerted
        = some Err.noJsonNoUrl) := by
  have hfb := interpretOkBody_fallback d body hd
  constructor
  · intro url hm
    have hr : fetchResult (FetchOutcome.response status body (some d))
        = Except.ok url := by
      unfold fetchResult
      simp [hs, hfb, hm]
    rw [handleSubmit_of_ok st _ url hv hr]
    exact ⟨rfl, rfl, rfl⟩
  · intro hm
    have hr : fetchResult (FetchOutcome.response status body (some d))
        = Except.error Err.noJsonNoUrl := by
      unfold fetchResult
      simp [hs, hfb, hm]
    rw [handleSubmit_of_error st _ Err.noJsonNoUrl hv hr]
    exact ⟨rfl, rfl, rfl⟩

/-- C1 amended witness: the counterexample input, through the amended claim:
the raw text of the wrong-shape JSON contains a URL, so the attempt ends in
Success with it. -/
theorem claim1_amended_wrong_shape_falls_back_witness :
    (handleSubmit sampleValidState
      (FetchOutcome.response 200 cxBody (some cxParsed))).finalState.googleSheetUrl
      = "https://docs.google.com/spreadsheets/d/ABC" ∧
    (handleSubmit sampleValidState
      (FetchOutcome.response 200 cxBody (some cxParsed))).alerted = none := by
  have h := (claim1_amended_wrong_shape_falls_back sampleValidState 200 cxBody
    cxParsed (by decide) (by decide)
    (fun v hveq => by
      rw [show shapeCheck cxParsed = ShapeCheck.denied from rfl] at hveq
      exact ShapeCheck.noConfusion hveq)).1
    "https://docs.google.com/spreadsheets/d/ABC" (by decide)
  exact ⟨h.2.1, h.2.2⟩

/-- Every reachable state showing Success carries a well-formed spreadsheet
URL (the URL field is only ever set to a regex match). -/
theorem reachable_success_url (s : AppState) (h : Reachable s) :
    s.showSuccess = true → isSheetUrl s.googleSheetUrl := by
  induction h with
  | init =>
    intro hss
    exact absurd hss (by simp [initialState])
  | next s' ev hr ih =>
    cases ev with
    | edit ed =>
      intro hss
      rw [show step s' (Event.edit ed) = handleInputChange s' ed from rfl,
        handleInputChange_showSuccess] at hss
      exact absurd hss (by simp)
    | editNumberRaw raw =>
      intro hss
      rw [show step s' (Event.editNumberRaw raw)
          = handleInputChange s' (FieldEdit.numberOfPlaces ((jsParseInt raw).getD 0))
          from rfl,
        handleInputChange_showSuccess] at hss
      exact absurd hss (by simp)
    | submit env =>
      intro hss
      have hstep : step s' (Event.submit env) = (handleSubmit s' env).finalState := rfl
      rw [hstep] at hss ⊢
      cases hb : (computeErrors s'.formData).isEmpty with
      | false =>
        rw [handleSubmit_of_isEmpty_false s' env hb] at hss ⊢
        exact ih hss
      | true =>
        cases hr2 : fetchResult env with
        | ok url =>
          rw [handleSubmit_of_ok s' env url hb hr2]
          obtain ⟨s2, hs2⟩ := fetchResult_ok env url hr2
          exact strMatch_isSheetUrl s2 url hs2
        | error e =>
          rw [handleSubmit_of_error s' env e hb hr2] at hss
          exact absurd hss (by simp)

/-- C10: in every reachable state in which the Success panel is displayed, the
captured URL is nonempty and consists of the literal prefix
`https://docs.google.com/spreadsheets/d/` followed by at least one character
of the class `[a-zA-Z0-9-_]`. -/
theorem claim10_displayed_url_wellformed (s : AppState) (h : Reachable s)
    (hd : successDisplayed s = true) :
    s.googleSheetUrl ≠ "" ∧ isSheetUrl s.googleSheetUrl := by
  have hparts : s.showSuccess = true ∧ s.googleSheetUrl ≠ "" := by
    simpa [successDisplayed] using hd
  exact ⟨hparts.2, reachable_success_url s h hparts.1⟩

/-- C10 witness: a concrete reachable Success state (fill the two text fields,
then submit and receive a raw-text body carrying a URL) satisfies the
invariant. -/
theorem claim10_displayed_url_wellformed_witness :
    (step (step (step initialState (Event.edit (FieldEdit.searchTerms "a")))
        (Event.edit (FieldEdit.location "b")))
      (Event.submit (FetchOutcome.response 200
        "https://docs.google.com/spreadsheets/d/Q" none))).googleSheetUrl ≠ "" ∧
    isSheetUrl (step (step (step initialState (Event.edit (FieldEdit.searchTerms "a")))
        (Event.edit (FieldEdit.location "b")))
      (Event.submit (FetchOutcome.response 200
        "https://docs.google.com/spreadsheets/d/Q" none))).googleSheetUrl :=
  claim10_displayed_url_wellformed _
    (Reachable.next _ _ (Reachable.next _ _ (Reachable.next _ _ Reachable.init)))
    (by decide)

end GmapsApp
